import Mathlib

/-!
Verification of the FINTEL AI invoice compliance and anomaly engine.

Shallow embedding of the core of the repository (files `AI-Agent/gst_verifier.py`,
`AI-Agent/fintel_api_fixed.py`, `AI-Agent/database.py`): the GST format validator,
the compliance scorer, the ML feature extractor, the document-store adapter
(invoice storage, vendor aggregates, vendor statistics) and the historical
anomaly detector, together with theorems settling the specification's claims.

Modelling conventions:
* Python floats are idealised as rationals (`ℚ`); machine rounding is not modelled.
* Python `None` / absent dictionary keys are modelled with `Option` or with the
  falsy default the source reads back (`''`, `0`, `[]`).
* MongoDB collections are lists in insertion order; `find_one` is `List.find?`,
  `find(...).limit(n)` is `filter` + `take n`, `insert_one` appends.
* MongoDB ObjectIds are `Nat`; a BSON comparison between an ObjectId and a
  string (which never succeeds in MongoDB) is modelled by `BsonVal`.
-/

/-! ## GST format validation (`gst_verifier.py`, `validate_gst_format`;
    `fintel_api_fixed.py`, `validate_gst_number`) -/

/-- Regex character class `[0-9]` (ASCII). -/
def isDigitCh (c : Char) : Bool := 48 ≤ c.toNat && c.toNat ≤ 57

/-- Regex character class `[A-Z]` (ASCII). -/
def isUpperCh (c : Char) : Bool := 65 ≤ c.toNat && c.toNat ≤ 90

/-- Regex character class `[1-9A-Z]`. -/
def isNonzeroDigitOrUpperCh (c : Char) : Bool :=
  (49 ≤ c.toNat && c.toNat ≤ 57) || isUpperCh c

/-- Regex character class `[0-9A-Z]`. -/
def isDigitOrUpperCh (c : Char) : Bool := isDigitCh c || isUpperCh c

/-- Regex character class `[Z]`. -/
def isZCh (c : Char) : Bool := c == 'Z'

/-- A sequence of single-character classes matched against a character list,
one class per character, consuming the whole list. -/
def matchesClasses : List (Char → Bool) → List Char → Bool
  | [], [] => true
  | k :: ks, c :: cs => k c && matchesClasses ks cs
  | _, _ => false

/-- The canonical GST regex
`^[0-9]{2}[A-Z]{5}[0-9]{4}[A-Z]{1}[1-9A-Z]{1}[Z]{1}[0-9A-Z]{1}$`
as its 15 character classes, in order. -/
def gstClasses : List (Char → Bool) :=
  [isDigitCh, isDigitCh,
   isUpperCh, isUpperCh, isUpperCh, isUpperCh, isUpperCh,
   isDigitCh, isDigitCh, isDigitCh, isDigitCh,
   isUpperCh, isNonzeroDigitOrUpperCh, isZCh, isDigitOrUpperCh]

/-- Exact match of the 15-class GST pattern against a whole character list. -/
def gstPattern15 (cs : List Char) : Bool := matchesClasses gstClasses cs

/-- `re.match` of the anchored GST pattern against a string: the pattern must
consume the whole input, except that Python's `$` also matches just before one
trailing newline. -/
def reMatchGst (s : String) : Bool :=
  gstPattern15 s.toList ||
    (s.toList.getLast? == some '\n' && gstPattern15 s.toList.dropLast)

/-- Python `str.upper()` on one character, ASCII fragment (the source only ever
feeds ASCII GST candidates through it). -/
def pyUpperChar (c : Char) : Char :=
  if 97 ≤ c.toNat ∧ c.toNat ≤ 122 then Char.ofNat (c.toNat - 32) else c

/-- `GSTVerifier.validate_gst_format` (`gst_verifier.py` lines 48-70): reject a
falsy input, strip spaces and uppercase, demand exactly 15 characters, then
match the canonical pattern. -/
def validate_gst_format (g : String) : Bool :=
  if g == "" then false
  else
    let cleaned := (g.toList.filter (fun c => c ≠ ' ')).map pyUpperChar
    if cleaned.length ≠ 15 then false
    else gstPattern15 cleaned

/-- `validate_gst_number` (`fintel_api_fixed.py` lines 646-656): a bare
`re.match` of the same anchored pattern, no stripping, returning the `valid`
field of the result dict. -/
def validate_gst_number (g : String) : Bool := reMatchGst g

/-! ## Arithmetic accuracy check (`fintel_api_fixed.py` lines 658-678) -/

/-- The value found at `invoice_data['total_amount']`: a number (int/float,
idealised as `ℚ`), a string that `float(...)` rejects even after comma removal,
or an absent key. Numeric strings that parse are modelled by `num` with the
parsed value. -/
inductive AmountVal where
  | num (q : ℚ)
  | badStr (s : String)
  | absent
  deriving DecidableEq

/-- Result dict of `check_arithmetic_accuracy`; the failure path carries only
`overall_accurate = False`. -/
structure ArithCheck where
  overall_accurate : Bool
  base_amount : Option ℚ
  expected_gst : Option ℚ
  expected_total : Option ℚ
  deriving DecidableEq

/-- `check_arithmetic_accuracy`: if the amount is truthy and parses, rebuild an
assumed 18%-inclusive total and compare with tolerance 1.0; every other path
(falsy amount, parse failure) reports `overall_accurate = False`. -/
def check_arithmetic_accuracy : AmountVal → ArithCheck
  | .num q =>
    if q ≠ 0 then
      let base := q / 1.18
      let egst := base * 0.18
      let etot := base + egst
      { overall_accurate := decide (|q - etot| < 1),
        base_amount := some base, expected_gst := some egst,
        expected_total := some etot }
    else
      { overall_accurate := false, base_amount := none,
        expected_gst := none, expected_total := none }
  | _ =>
    { overall_accurate := false, base_amount := none,
      expected_gst := none, expected_total := none }

/-! ## Helper lemmas on the GST pattern -/

/-- Every class of the canonical pattern accepts only non-space characters that
`upper()` leaves unchanged. -/
theorem gstClasses_chars_clean :
    ∀ k ∈ gstClasses, ∀ c : Char, k c = true → c ≠ ' ' ∧ pyUpperChar c = c := by
  have hd : ∀ c : Char, isDigitCh c = true → c ≠ ' ' ∧ pyUpperChar c = c := by
    intro c hc
    constructor
    · rintro rfl; exact absurd hc (by decide)
    · simp only [isDigitCh, Bool.and_eq_true, decide_eq_true_eq] at hc
      simp only [pyUpperChar]
      rw [if_neg]; omega
  have hu : ∀ c : Char, isUpperCh c = true → c ≠ ' ' ∧ pyUpperChar c = c := by
    intro c hc
    constructor
    · rintro rfl; exact absurd hc (by decide)
    · simp only [isUpperCh, Bool.and_eq_true, decide_eq_true_eq] at hc
      simp only [pyUpperChar]
      rw [if_neg]; omega
  intro k hk c hc
  simp only [gstClasses, List.mem_cons, List.not_mem_nil, or_false] at hk
  rcases hk with rfl | rfl | rfl | rfl | rfl | rfl | rfl | rfl | rfl | rfl | rfl | rfl | rfl | rfl | rfl
  · exact hd c hc
  · exact hd c hc
  · exact hu c hc
  · exact hu c hc
  · exact hu c hc
  · exact hu c hc
  · exact hu c hc
  · exact hd c hc
  · exact hd c hc
  · exact hd c hc
  · exact hd c hc
  · exact hu c hc
  · rcases Bool.or_eq_true _ _ |>.mp hc with h | h
    · constructor
      · rintro rfl; exact absurd h (by decide)
      · simp only [Bool.and_eq_true, decide_eq_true_eq] at h
        simp only [pyUpperChar]; rw [if_neg]; omega
    · exact hu c h
  · have : c = 'Z' := by
      simpa [isZCh] using hc
    subst this
    constructor
    · decide
    · decide
  · rcases Bool.or_eq_true _ _ |>.mp hc with h | h
    · exact hd c h
    · exact hu c h

/-- A list matched by clean classes contains no spaces and is fixed by
uppercasing. -/
theorem matchesClasses_clean (ks : List (Char → Bool)) (cs : List Char)
    (hks : ∀ k ∈ ks, ∀ c : Char, k c = true → c ≠ ' ' ∧ pyUpperChar c = c)
    (h : matchesClasses ks cs = true) :
    cs.filter (fun c => c ≠ ' ') = cs ∧ cs.map pyUpperChar = cs ∧
      cs.length = ks.length := by
  induction ks generalizing cs with
  | nil =>
    cases cs with
    | nil => simp
    | cons c cs => simp [matchesClasses] at h
  | cons k ks ih =>
    cases cs with
    | nil => simp [matchesClasses] at h
    | cons c cs =>
      simp only [matchesClasses, Bool.and_eq_true] at h
      obtain ⟨hc, hrest⟩ := h
      obtain ⟨hne, hup⟩ := hks k (List.mem_cons_self _ _) c hc
      obtain ⟨hf, hm, hl⟩ := ih cs (fun k hk => hks k (List.mem_cons_of_mem _ hk)) hrest
      refine ⟨?_, ?_, ?_⟩
      · rw [List.filter_cons_of_pos (by simp [hne]), hf]
      · simp [hup, hm]
      · simp [hl]

/-- A string matching the canonical pattern is fixed by space-stripping and
uppercasing, and has 15 characters. -/
theorem gstPattern15_clean (cs : List Char) (h : gstPattern15 cs = true) :
    cs.filter (fun c => c ≠ ' ') = cs ∧ cs.map pyUpperChar = cs ∧
      cs.length = 15 := by
  have := matchesClasses_clean gstClasses cs gstClasses_chars_clean h
  simpa [gstClasses] using this

/-! ## Invoice data model (the dicts flowing through `fintel_api_fixed.py`) -/

/-- One entry of `invoice_data['gst_verification']`. Keys the detector reads;
absent keys read back as falsy and are modelled as `false`. -/
structure GstVerification where
  success : Bool
  is_active : Bool
  deriving DecidableEq

/-- One entry of `invoice_data['hsn_sac_verification']`. -/
structure HsnVerification where
  code : String
  is_valid : Bool
  deriving DecidableEq

/-- One entry of `line_items_verification['rate_mismatches']`. -/
structure RateMismatch where
  item : String
  hsn_code : String
  actual_rate : ℚ
  extracted_rate : ℚ
  deriving DecidableEq

/-- The `hsn_sac_line_items_verification` dict (only the key the detector
reads). -/
structure LineItemsVerification where
  rate_mismatches : List RateMismatch
  deriving DecidableEq

/-- The invoice dict assembled by `upload_invoice_complete`
(`fintel_api_fixed.py` lines 263-272 and 355-372).  String fields default to
`''`/`'Unknown'` upstream; absence is modelled by the falsy default the source
reads back (`""`, `0`, `[]`, `none`).  `total_amount` is already a float at
this point (lines 257-261).  Display-only fields (`filename`, rates, raw
structured data) are omitted: no embedded operation reads them. -/
structure InvoiceData where
  invoice_number : String
  total_amount : ℚ
  invoice_date : String
  vendor_name : String
  gst_numbers : List String
  ocr_confidence : ℚ
  raw_text : String
  gst_verification : List GstVerification
  gst_missing : Bool
  hsn_sac_codes : List String
  item_descriptions : List String
  hsn_sac_verification : List HsnVerification
  hsn_sac_line_items_verification : Option LineItemsVerification
  deriving DecidableEq

/-- The `enhanced_data` dict built by `extract_enhanced_invoice_data`
(`fintel_api_fixed.py` lines 494-541). -/
structure EnhancedData where
  hsn_sac_codes : List String
  item_descriptions : List String
  quantities : List ℚ
  deriving DecidableEq

/-! ## Compliance scorer (`fintel_api_fixed.py` lines 543-644) -/

/-- Keys of the in-file `HSN_SAC_DATABASE` reference table
(`fintel_api_fixed.py` lines 87-96). -/
def hsn_sac_database_codes : List String :=
  ["8517", "8471", "9403", "7326", "3926", "8443", "4901", "9983"]

/-- Presence checks over `basic_fields` (lines 551-555): one point per truthy
field, in source order. -/
def presence_points (inv : InvoiceData) : ℚ :=
  (if inv.invoice_number ≠ "" then 1 else 0)
  + (if inv.total_amount ≠ 0 then 1 else 0)
  + (if inv.invoice_date ≠ "" then 1 else 0)
  + (if inv.vendor_name ≠ "" then 1 else 0)
  + (if inv.gst_numbers ≠ [] then 1 else 0)

/-- GST validation loop (lines 566-571): 0.5 point per GST number whose format
validates, additively, uncapped. -/
def gst_points : List String → ℚ
  | [] => 0
  | g :: gs => (if validate_gst_number g then (1 : ℚ) / 2 else 0) + gst_points gs

/-- HSN validation loop (lines 574-583): one point for the first extracted code
present in the reference table, then `break`. -/
def hsn_point : List String → ℚ
  | [] => 0
  | c :: cs => if hsn_sac_database_codes.contains c then 1 else hsn_point cs

/-- One entry of the `analyze_market_prices` result (lines 680-702). -/
structure PriceEntry where
  item : String
  billed_price : ℚ
  market_avg : ℚ
  variance_percent : ℚ
  is_outlier : Bool
  deriving DecidableEq

/-- `analyze_market_prices`: when items and a truthy amount exist, compare the
invoice amount against the fixed market average 25000 per item. -/
def analyze_market_prices (enh : EnhancedData) (inv : InvoiceData) :
    List PriceEntry :=
  if enh.item_descriptions ≠ [] ∧ inv.total_amount ≠ 0 then
    enh.item_descriptions.map (fun it =>
      let variance := (inv.total_amount - 25000) / 25000 * 100
      { item := it, billed_price := inv.total_amount, market_avg := 25000,
        variance_percent := variance, is_outlier := decide (50 < |variance|) })
  else []

/-- The accumulated `checks_passed` of `process_complete_compliance`, summand
per summand in source order (duplicate-check placeholder is the constant 1 at
lines 590-592). -/
def checks_passed (inv : InvoiceData) (enh : EnhancedData) : ℚ :=
  presence_points inv
  + (if enh.hsn_sac_codes ≠ [] ∨ enh.item_descriptions ≠ [] then 1 else 0)
  + (if 80 ≤ inv.ocr_confidence then 1 else 0)
  + gst_points inv.gst_numbers
  + hsn_point enh.hsn_sac_codes
  + (if (check_arithmetic_accuracy (.num inv.total_amount)).overall_accurate
      then 1 else 0)
  + 1
  + (if (analyze_market_prices enh inv).all (fun p => !p.is_outlier)
      then 1 else 0)

/-- `compliance_results['compliance_score']` (line 600):
`(checks_passed / total_checks) * 100` with `total_checks = 12`. -/
def compliance_score (inv : InvoiceData) (enh : EnhancedData) : ℚ :=
  checks_passed inv enh / 12 * 100

/-! ## ML feature extraction (`fintel_api_fixed.py` lines 704-742) -/

/-- Python `int()` truncation toward zero on a rational. -/
def pyTrunc (a : ℚ) : ℤ := if 0 ≤ a then ⌊a⌋ else ⌈a⌉

/-- Python `%` with positive right operand on a rational. -/
def pyMod1000 (a : ℚ) : ℚ := a - 1000 * ⌊a / 1000⌋

/-- `len(str(int(amount)))`: decimal digit count including a minus sign. -/
def digit_count (a : ℚ) : ℚ := ((toString (pyTrunc a)).length : ℚ)

/-- The feature list built by `extract_ml_features` before the final length
guard.  `parseDate` abstracts `pd.to_datetime`: `some (dow, day, month)` on
success, `none` when parsing raises (the `except` branch). -/
def build_ml_features (parseDate : String → Option (ℚ × ℚ × ℚ))
    (inv : InvoiceData) : List ℚ :=
  (if inv.total_amount ≠ 0 then
      [inv.total_amount, pyMod1000 inv.total_amount,
       digit_count inv.total_amount]
    else [0, 0, 0])
  ++ (if inv.invoice_date ≠ "" then
        match parseDate inv.invoice_date with
        | some (w, d, m) => [w, d, m]
        | none => [0, 0, 0]
      else [0, 0, 0])
  ++ [inv.ocr_confidence, (inv.raw_text.length : ℚ),
      (inv.gst_numbers.length : ℚ),
      if inv.vendor_name ≠ "" then 1 else 0,
      if inv.invoice_number ≠ "" then 1 else 0,
      if inv.invoice_date ≠ "" then 1 else 0,
      if inv.total_amount ≠ 0 then 1 else 0,
      0]

/-- `extract_ml_features`: returns the feature list only when it has at least
16 entries, otherwise `None` (line 738). -/
def extract_ml_features (parseDate : String → Option (ℚ × ℚ × ℚ))
    (inv : InvoiceData) : Option (List ℚ) :=
  let features := build_ml_features parseDate inv
  if 16 ≤ features.length then some features else none

/-! ## Document store adapter (`database.py`) -/

/-- A document of the `invoices` collection as written by `store_invoice`
(`database.py` lines 51-69).  Only the fields read back by queries are kept;
display-only fields (rates, descriptions, stored results) are omitted. -/
structure StoredInvoice where
  id : Nat
  invoiceNumber : String
  vendorName : String
  gstNumber : Option String
  totalAmount : ℚ
  hsnCodes : List String
  uploadDate : Nat
  deriving DecidableEq

/-- A document of the `vendors` collection (`database.py` lines 107-114). -/
structure VendorRow where
  gstNumber : String
  vendorName : String
  totalInvoices : Nat
  totalAmount : ℚ
  firstInvoiceDate : Nat
  lastInvoiceDate : Nat
  deriving DecidableEq

/-- The database state touched by invoice storage: the `invoices` and
`vendors` collections in insertion order, plus the ObjectId generator. -/
structure DbState where
  invoices : List StoredInvoice
  vendors : List VendorRow
  nextId : Nat
  deriving DecidableEq

/-- The empty database. -/
def emptyDb : DbState := { invoices := [], vendors := [], nextId := 0 }

/-- `update_one` on the `vendors` collection: MongoDB updates the first
document matching the filter. -/
def updateFirstVendor (g : String) (f : VendorRow → VendorRow) :
    List VendorRow → List VendorRow
  | [] => []
  | r :: rs =>
    if r.gstNumber = g then f r :: rs else r :: updateFirstVendor g f rs

/-- `_update_vendor_stats` (`database.py` lines 80-114): no-op when the primary
GST number is falsy or the sentinel `'Unknown'`; otherwise increment the
existing row (overwriting vendor name and last-seen date) or create a fresh
one. -/
def update_vendor_stats (vendors : List VendorRow) (doc : StoredInvoice)
    (now : Nat) : List VendorRow :=
  match doc.gstNumber with
  | none => vendors
  | some g =>
    if g = "" ∨ g = "Unknown" then vendors
    else
      match vendors.find? (fun r => r.gstNumber == g) with
      | some _ =>
        updateFirstVendor g
          (fun r =>
            { r with
              totalInvoices := r.totalInvoices + 1,
              totalAmount := r.totalAmount + doc.totalAmount,
              vendorName := doc.vendorName,
              lastInvoiceDate := now })
          vendors
      | none =>
        vendors ++
          [{ gstNumber := g, vendorName := doc.vendorName, totalInvoices := 1,
             totalAmount := doc.totalAmount, firstInvoiceDate := now,
             lastInvoiceDate := now }]

/-- `store_invoice` (`database.py` lines 46-78): build the document (primary
GST number is the head of the list when the list is truthy), insert it, then
update the vendor statistics.  Returns the generated id and the new state. -/
def store_invoice (s : DbState) (inv : InvoiceData) (now : Nat) :
    Nat × DbState :=
  let doc : StoredInvoice :=
    { id := s.nextId,
      invoiceNumber := inv.invoice_number,
      vendorName := inv.vendor_name,
      gstNumber := match inv.gst_numbers with | [] => none | g :: _ => some g,
      totalAmount := inv.total_amount,
      hsnCodes := inv.hsn_sac_codes,
      uploadDate := now }
  (doc.id,
   { invoices := s.invoices ++ [doc],
     vendors := update_vendor_stats s.vendors doc now,
     nextId := s.nextId + 1 })

/-- Iterated `store_invoice` over a list of (invoice, timestamp) pairs. -/
def store_all (s : DbState) : List (InvoiceData × Nat) → DbState
  | [] => s
  | (inv, now) :: rest => store_all (store_invoice s inv now).2 rest

/-- Result of the `vendors_stats` aggregation (`database.py` lines 269-281). -/
structure VendorStats where
  avgAmount : ℚ
  maxAmount : ℚ
  minAmount : ℚ
  totalInvoices : Nat
  deriving DecidableEq

/-- `vendors_stats`: group all invoices with the given vendor name (the
current invoice included — the pipeline has no id exclusion) and average their
amounts; an empty match produces no group (empty result list, here `none`). -/
def vendors_stats (s : DbState) (vendorName : String) : Option VendorStats :=
  let amts := (s.invoices.filter (fun i => i.vendorName == vendorName)).map
    (fun i => i.totalAmount)
  match amts with
  | [] => none
  | a :: rest =>
    some { avgAmount := (a :: rest).sum / ((a :: rest).length : ℚ),
           maxAmount := rest.foldl max a,
           minAmount := rest.foldl min a,
           totalInvoices := (a :: rest).length }

/-! ## Historical anomaly detector (`database.py` lines 116-267) -/

/-- A BSON value as compared by MongoDB query operators: an ObjectId and a
string are distinct BSON types and never compare equal. -/
inductive BsonVal where
  | oid (n : Nat)
  | str (s : String)
  deriving DecidableEq

/-- BSON equality across types. -/
def bsonEq : BsonVal → BsonVal → Bool
  | .oid a, .oid b => a == b
  | .str a, .str b => a == b
  | _, _ => false

/-- The anomaly type enum of `detect_anomalies`. -/
inductive AnomalyType where
  | DUPLICATE_INVOICE
  | MISSING_GST
  | INVALID_GST
  | GST_VENDOR_MISMATCH
  | UNUSUAL_AMOUNT
  | INVALID_HSN_SAC
  | HSN_GST_RATE_MISMATCH
  | HSN_PRICE_DEVIATION
  deriving DecidableEq

/-- Anomaly severities produced by the detector. -/
inductive Severity where
  | HIGH
  | MEDIUM
  deriving DecidableEq

/-- One entry of the list returned by `detect_anomalies`.  The human-readable
`description` strings are display-only and omitted. -/
structure Anomaly where
  type : AnomalyType
  severity : Severity
  relatedInvoiceId : Option Nat
  deriving DecidableEq

/-- Check 1 (`database.py` lines 130-141): another invoice with the same
invoice number and a different id. -/
def duplicate_block (s : DbState) (inv : InvoiceData) (objId : Nat) :
    List Anomaly :=
  match s.invoices.find?
      (fun i => i.invoiceNumber == inv.invoice_number && !(i.id == objId)) with
  | some d => [{ type := .DUPLICATE_INVOICE, severity := .HIGH,
                 relatedInvoiceId := some d.id }]
  | none => []

/-- Check 2 (lines 143-152): empty GST list or explicit missing flag. -/
def missing_gst_block (inv : InvoiceData) : List Anomaly :=
  if inv.gst_numbers.isEmpty || inv.gst_missing then
    [{ type := .MISSING_GST, severity := .HIGH, relatedInvoiceId := none }]
  else []

/-- The primary GST number as read at line 155: head of the list, `None` when
the list is empty; a falsy (empty) head disables checks 3 and 4. -/
def primary_gst (inv : InvoiceData) : Option String :=
  match inv.gst_numbers with
  | [] => none
  | g :: _ => some g

/-- Check 3 (lines 154-166): verification entry 0 reports failure or an
inactive number. -/
def invalid_gst_block (inv : InvoiceData) : List Anomaly :=
  match primary_gst inv with
  | some g =>
    if g ≠ "" then
      match inv.gst_verification with
      | v :: _ =>
        if !v.success || !v.is_active then
          [{ type := .INVALID_GST, severity := .HIGH,
             relatedInvoiceId := none }]
        else []
      | [] => []
    else []
  | none => []

/-- Check 4 (lines 168-181): the primary GST number already stored under a
different vendor name on another invoice. -/
def gst_vendor_mismatch_block (s : DbState) (inv : InvoiceData) (objId : Nat) :
    List Anomaly :=
  match primary_gst inv with
  | some g =>
    if g ≠ "" then
      match s.invoices.find?
          (fun i => i.gstNumber == some g
            && !(i.vendorName == inv.vendor_name) && !(i.id == objId)) with
      | some d => [{ type := .GST_VENDOR_MISMATCH, severity := .HIGH,
                     relatedInvoiceId := some d.id }]
      | none => []
    else []
  | none => []

/-- Check "4." unusual amount (lines 183-207): vendor-name-keyed average over
all stored invoices (via `vendors_stats`), anomaly when positive and the
current amount exceeds three times it. -/
def unusual_amount_block (s : DbState) (inv : InvoiceData) : List Anomaly :=
  if inv.vendor_name ≠ "" ∧ inv.vendor_name ≠ "Unknown" then
    match vendors_stats s inv.vendor_name with
    | some st =>
      if 0 < st.avgAmount ∧ st.avgAmount * 3 < inv.total_amount then
        [{ type := .UNUSUAL_AMOUNT, severity := .MEDIUM,
           relatedInvoiceId := none }]
      else []
    | none => []
  else []

/-- Check 5 (lines 209-219): one anomaly per not-valid HSN/SAC verification
entry. -/
def invalid_hsn_block (inv : InvoiceData) : List Anomaly :=
  (inv.hsn_sac_verification.filter (fun v => !v.is_valid)).map
    (fun _ => { type := .INVALID_HSN_SAC, severity := .HIGH,
                relatedInvoiceId := none })

/-- Check 5b (lines 221-229): one anomaly per reported rate mismatch. -/
def rate_mismatch_block (inv : InvoiceData) : List Anomaly :=
  match inv.hsn_sac_line_items_verification with
  | some lv =>
    lv.rate_mismatches.map
      (fun _ => { type := .HSN_GST_RATE_MISMATCH, severity := .HIGH,
                  relatedInvoiceId := none })
  | none => []

/-- Check 6 inner loop (lines 231-253).  The query compares the stored
ObjectId `_id` against the *string* `invoice_id` (the source converts
`invoice_id` to `obj_id` at line 126 but does not use it here), so the
exclusion filter never excludes anything.  `break` on the first qualifying
code. -/
def hsn_price_check (s : DbState) (inv : InvoiceData) (rawId : String) :
    List String → List Anomaly
  | [] => []
  | h :: rest =>
    let similar := ((s.invoices.filter
      (fun i => i.hsnCodes.contains h
        && !(bsonEq (.oid i.id) (.str rawId)))).take 10)
    if 3 ≤ similar.length then
      let amounts := (similar.map (fun i => i.totalAmount)).filter
        (fun a => 0 < a)
      match amounts with
      | [] => hsn_price_check s inv rawId rest
      | a :: arest =>
        let avg := (a :: arest).sum / ((a :: arest).length : ℚ)
        if 0 < avg ∧ avg * (1 / 2) < |inv.total_amount - avg| then
          [{ type := .HSN_PRICE_DEVIATION, severity := .MEDIUM,
             relatedInvoiceId := none }]
        else hsn_price_check s inv rawId rest
    else hsn_price_check s inv rawId rest

/-- Check 6 (lines 231-253): first three codes of the list. -/
def hsn_price_block (s : DbState) (inv : InvoiceData) (rawId : String) :
    List Anomaly :=
  hsn_price_check s inv rawId (inv.hsn_sac_codes.take 3)

/-- `detect_anomalies` (`database.py` lines 116-267): the eight checks in
source order.  `objId` is the ObjectId parsed from the id string at line 126
(used by checks 1 and 4); `rawId` is the raw id string (used, mistakenly, by
check 6).  Persistence of the returned list into the `anomalies` collection
does not alter the `invoices` or `vendors` collections and is not modelled
here. -/
def detect_anomalies (s : DbState) (inv : InvoiceData) (objId : Nat)
    (rawId : String) : List Anomaly :=
  duplicate_block s inv objId
  ++ missing_gst_block inv
  ++ invalid_gst_block inv
  ++ gst_vendor_mismatch_block s inv objId
  ++ unusual_amount_block s inv
  ++ invalid_hsn_block inv
  ++ rate_mismatch_block inv
  ++ hsn_price_block s inv rawId

/-! ## Anomaly trends (`database.py` lines 364-445) -/

/-- A document of the `anomalies` collection as read by `get_anomaly_trends`;
dates are modelled at calendar-day granularity as integer day indices. -/
structure AnomalyRow where
  anomalyType : AnomalyType
  detectedDate : ℤ
  deriving DecidableEq

/-- The four trend buckets (`database.py` lines 415-423). -/
inductive TrendBucket where
  | duplicates
  | invalidGst
  | missingGst
  | hsnAnomalies
  deriving DecidableEq

/-- Bucket mapping of `get_anomaly_trends` (lines 416-423): every anomaly type
the detector emits maps to exactly one bucket. -/
def bucket_of : AnomalyType → TrendBucket
  | .DUPLICATE_INVOICE => .duplicates
  | .INVALID_GST => .invalidGst
  | .GST_VENDOR_MISMATCH => .invalidGst
  | .MISSING_GST => .missingGst
  | .INVALID_HSN_SAC => .hsnAnomalies
  | .HSN_GST_RATE_MISMATCH => .hsnAnomalies
  | .HSN_PRICE_DEVIATION => .hsnAnomalies
  | .UNUSUAL_AMOUNT => .hsnAnomalies

/-- One entry of the trends result (lines 405-413 / 435-442). -/
structure TrendEntry where
  date : ℤ
  duplicates : Nat
  invalidGst : Nat
  missingGst : Nat
  hsnAnomalies : Nat
  total : Nat
  deriving DecidableEq

/-- The per-day entry assembled from the anomalies matched by the date-range
aggregation: the grouped per-(date, type) counts summed into buckets (zero
entry when no anomaly of that day was matched, which coincides with summing an
empty group). -/
def trend_entry_for (matched : List AnomalyRow) (d : ℤ) : TrendEntry :=
  { date := d,
    duplicates := (matched.filter (fun a =>
      a.detectedDate == d && bucket_of a.anomalyType == .duplicates)).length,
    invalidGst := (matched.filter (fun a =>
      a.detectedDate == d && bucket_of a.anomalyType == .invalidGst)).length,
    missingGst := (matched.filter (fun a =>
      a.detectedDate == d && bucket_of a.anomalyType == .missingGst)).length,
    hsnAnomalies := (matched.filter (fun a =>
      a.detectedDate == d && bucket_of a.anomalyType == .hsnAnomalies)).length,
    total := (matched.filter (fun a => a.detectedDate == d)).length }

/-- `get_anomaly_trends` (`database.py` lines 364-445): match the anomalies of
the inclusive range `[today - days, today]`, then walk the range day by day
(`while current_date <= end_date`), emitting the aggregated entry for days
with matched anomalies and a zero-filled entry otherwise. -/
def get_anomaly_trends (anomalies : List AnomalyRow) (today : ℤ)
    (days : Nat) : List TrendEntry :=
  let startDay := today - days
  let matched := anomalies.filter
    (fun a => startDay ≤ a.detectedDate ∧ a.detectedDate ≤ today)
  (List.range (days + 1)).map
    (fun i : Nat => trend_entry_for matched (startDay + (i : ℤ)))

/-! ## Helper lemmas -/

/-- For any truthy numeric amount the reconstructed 18%-inclusive total equals
the amount exactly (rational arithmetic), so the tolerance check passes. -/
theorem overall_accurate_of_ne_zero (q : ℚ) (hq : q ≠ 0) :
    (check_arithmetic_accuracy (.num q)).overall_accurate = true := by
  simp only [check_arithmetic_accuracy, if_pos hq]
  have he : q / 1.18 + q / 1.18 * 0.18 = q := by
    have h118 : (1.18 : ℚ) ≠ 0 := by norm_num
    field_simp
    ring
  rw [decide_eq_true_eq, he]
  simp

/-- The GST loop awards exactly half a point per valid number. -/
theorem gst_points_eq_countP (gs : List String) :
    gst_points gs = (gs.countP (fun g => validate_gst_number g) : ℚ) / 2 := by
  induction gs with
  | nil => simp [gst_points]
  | cons g gs ih =>
    rw [gst_points, ih, List.countP_cons]
    by_cases hg : validate_gst_number g = true
    · simp [hg]
      ring
    · simp [hg]

theorem hsn_point_nonneg (cs : List String) : 0 ≤ hsn_point cs := by
  induction cs with
  | nil => simp [hsn_point]
  | cons c cs ih =>
    rw [hsn_point]
    split
    · norm_num
    · exact ih

theorem hsn_point_le_one (cs : List String) : hsn_point cs ≤ 1 := by
  induction cs with
  | nil => simp [hsn_point]
  | cons c cs ih =>
    rw [hsn_point]
    split
    · norm_num
    · exact ih

theorem presence_points_nonneg (inv : InvoiceData) : 0 ≤ presence_points inv := by
  unfold presence_points
  split_ifs <;> norm_num

theorem presence_points_le_five (inv : InvoiceData) :
    presence_points inv ≤ 5 := by
  unfold presence_points
  split_ifs <;> norm_num

/-! ## Claim C10 -/

/-- C10: for every positive total amount, `check_arithmetic_accuracy` reports
`overall_accurate = true` — dividing by 1.18 and adding back 18% of the base
reconstructs the original exactly in ideal arithmetic, well within the 1.0
tolerance — while an absent, zero, or unparsable total reports
`overall_accurate = false`. -/
theorem arithmetic_check_spec (q : ℚ) (h : 0 < q) :
    (check_arithmetic_accuracy (.num q)).overall_accurate = true ∧
    (check_arithmetic_accuracy .absent).overall_accurate = false ∧
    (check_arithmetic_accuracy (.num 0)).overall_accurate = false ∧
    (∀ s, (check_arithmetic_accuracy (.badStr s)).overall_accurate = false) := by
  refine ⟨overall_accurate_of_ne_zero q (ne_of_gt h), rfl, ?_, fun s => rfl⟩
  simp [check_arithmetic_accuracy]

/-- C10 witness: the theorem applied at the concrete amount 118. -/
theorem arithmetic_check_spec_witness :
    (check_arithmetic_accuracy (.num 118)).overall_accurate = true ∧
    (check_arithmetic_accuracy .absent).overall_accurate = false ∧
    (check_arithmetic_accuracy (.num 0)).overall_accurate = false ∧
    (∀ s, (check_arithmetic_accuracy (.badStr s)).overall_accurate = false) :=
  arithmetic_check_spec 118 (by norm_num)

/-! ## Claim C7 -/

/-- C7 counterexample: a 16-character input (a valid GST followed by one
space) does not have length 15, yet `validate_gst_format` returns `true`,
because the source strips spaces before its length check.  This refutes
"returns false for every input string whose length is not 15". -/
theorem validate_gst_format_length16_true :
    "22AAAAA0000A1Z5 ".length ≠ 15 ∧
      validate_gst_format "22AAAAA0000A1Z5 " = true := by
  constructor
  · decide
  · decide

/-- C7 amended: `validate_gst_format` returns true for every 15-character
string matching the canonical pattern, and returns false for every input
whose *space-stripped* form does not have length 15 (the raw length is
checked only after removing spaces and uppercasing). -/
theorem validate_gst_format_amended (s : String) :
    (gstPattern15 s.toList = true → validate_gst_format s = true) ∧
    ((s.toList.filter (fun c => c ≠ ' ')).length ≠ 15 →
      validate_gst_format s = false) := by
  constructor
  · intro h
    obtain ⟨hfil, hmap, hlen⟩ := gstPattern15_clean s.toList h
    have hne : s ≠ "" := by
      intro he
      rw [he] at hlen
      simp at hlen
    unfold validate_gst_format
    rw [if_neg (by simpa using hne)]
    simp only [hfil, hmap, hlen]
    simpa [hfil, hmap] using h
  · intro h
    unfold validate_gst_format
    split
    · rfl
    · rw [if_pos]
      simpa using h

/-- C7 witness: the amended theorem applied at a canonical 15-character GST
string and at a short string. -/
theorem validate_gst_format_amended_witness :
    validate_gst_format "22AAAAA0000A1Z5" = true ∧
    validate_gst_format "ABC" = false := by
  constructor
  · exact (validate_gst_format_amended "22AAAAA0000A1Z5").1 (by decide)
  · exact (validate_gst_format_amended "ABC").2 (by decide)

/-! ## Claim C3 -/

/-- C3: `extract_ml_features` does assemble the documented feature list —
amount, amount mod 1000, digit count, day-of-week/day/month, OCR confidence,
raw-text length, GST count, 4 presence flags, 1 reserved slot, with zero
defaults — but that list always has exactly 14 entries, so the final
`len(features) >= 16` guard always fails and the function returns `None` for
every invoice and every date parser: no feature vector is ever supplied to
the anomaly classifier. -/
theorem extract_ml_features_always_none
    (parseDate : String → Option (ℚ × ℚ × ℚ)) (inv : InvoiceData) :
    (build_ml_features parseDate inv).length = 14 ∧
    extract_ml_features parseDate inv = none := by
  have hlen : (build_ml_features parseDate inv).length = 14 := by
    unfold build_ml_features
    split
    · split
      · split <;> simp
      · simp
    · split
      · split <;> simp
      · simp
  refine ⟨hlen, ?_⟩
  simp [extract_ml_features, hlen]

/-! ## Claim C1 -/

/-- An invoice carrying three format-valid GST numbers and passing every other
check (used to refute the score upper bound). -/
def three_gst_invoice : InvoiceData :=
  { invoice_number := "INV-1", total_amount := 25000,
    invoice_date := "2024-01-15", vendor_name := "Acme",
    gst_numbers := ["22AAAAA0000A1Z5", "27AAAAA0000A1Z5", "07AAAAA0000A1Z5"],
    ocr_confidence := 95, raw_text := "invoice text",
    gst_verification := [], gst_missing := false,
    hsn_sac_codes := ["8471"], item_descriptions := ["Laptop"],
    hsn_sac_verification := [], hsn_sac_line_items_verification := none }

/-- Enrichment data for `three_gst_invoice`. -/
def three_gst_enhanced : EnhancedData :=
  { hsn_sac_codes := ["8471"], item_descriptions := ["Laptop"],
    quantities := [] }

/-- C1 counterexample: with three valid GST numbers and every other check
passing, `checks_passed` reaches 12.5 and the compliance score is
625/6 ≈ 104.2, strictly above 100 — the 0.5-point-per-valid-GST rule is
uncapped and pushes the earned points above the 12-point total. -/
theorem compliance_score_exceeds_100_with_three_valid_gst :
    compliance_score three_gst_invoice three_gst_enhanced = 625 / 6 ∧
    100 < compliance_score three_gst_invoice three_gst_enhanced := by
  have hg1 : validate_gst_number "22AAAAA0000A1Z5" = true := by decide
  have hg2 : validate_gst_number "27AAAAA0000A1Z5" = true := by decide
  have hg3 : validate_gst_number "07AAAAA0000A1Z5" = true := by decide
  have s1 : (("INV-1" : String) = "") = False := eq_false (by decide)
  have s2 : (("2024-01-15" : String) = "") = False := eq_false (by decide)
  have s3 : (("Acme" : String) = "") = False := eq_false (by decide)
  have s4 : ((["22AAAAA0000A1Z5", "27AAAAA0000A1Z5", "07AAAAA0000A1Z5"] :
      List String) = []) = False := eq_false (by decide)
  have hval : compliance_score three_gst_invoice three_gst_enhanced
      = 625 / 6 := by
    simp only [compliance_score, checks_passed, presence_points, gst_points,
      hsn_point, analyze_market_prices, check_arithmetic_accuracy,
      three_gst_invoice, three_gst_enhanced, hsn_sac_database_codes,
      hg1, hg2, hg3]
    norm_num [decide_eq_true_eq, s1, s2, s3, s4]
  exact ⟨hval, by rw [hval]; norm_num⟩

/-- C1 amended: the compliance score is nonnegative for *every* invoice
input; it is bounded by 100 whenever at most two of the invoice's GST numbers
are format-valid (the uncapped 0.5-per-valid-GST rule breaks the bound from
three valid numbers up); and an input satisfying every checklist item with
exactly two valid GST numbers scores exactly 100. -/
theorem compliance_score_amended_bounds (inv : InvoiceData)
    (enh : EnhancedData) :
    0 ≤ compliance_score inv enh ∧
    (inv.gst_numbers.countP (fun g => validate_gst_number g) ≤ 2 →
      compliance_score inv enh ≤ 100) ∧
    (presence_points inv = 5 →
      (enh.hsn_sac_codes ≠ [] ∨ enh.item_descriptions ≠ []) →
      80 ≤ inv.ocr_confidence →
      inv.gst_numbers.countP (fun g => validate_gst_number g) = 2 →
      hsn_point enh.hsn_sac_codes = 1 →
      (check_arithmetic_accuracy (.num inv.total_amount)).overall_accurate
        = true →
      (analyze_market_prices enh inv).all (fun p => !p.is_outlier) = true →
      compliance_score inv enh = 100) := by
  have hcast0 : (0 : ℚ)
      ≤ ((inv.gst_numbers.countP (fun g => validate_gst_number g)) : ℚ) := by
    positivity
  have e : compliance_score inv enh = checks_passed inv enh * (25 / 3) := by
    unfold compliance_score
    ring
  have h1 := presence_points_nonneg inv
  have h2 := presence_points_le_five inv
  have h3 := hsn_point_nonneg enh.hsn_sac_codes
  have h4 := hsn_point_le_one enh.hsn_sac_codes
  refine ⟨?_, ?_, ?_⟩
  · have hcp0 : 0 ≤ checks_passed inv enh := by
      unfold checks_passed
      rw [gst_points_eq_countP]
      split_ifs <;> linarith
    rw [e]
    exact mul_nonneg hcp0 (by norm_num)
  · intro h
    have hcast : ((inv.gst_numbers.countP
        (fun g => validate_gst_number g)) : ℚ) ≤ 2 := by exact_mod_cast h
    have hcp12 : checks_passed inv enh ≤ 12 := by
      unfold checks_passed
      rw [gst_points_eq_countP]
      split_ifs <;> linarith
    rw [e]
    linarith
  · intro hp he ho hc hh ha hpr
    unfold compliance_score checks_passed
    rw [gst_points_eq_countP, hc, hp, hh, if_pos he, if_pos ho, if_pos ha,
      if_pos hpr]
    norm_num

/-- An invoice with exactly two valid GST numbers satisfying every checklist
item (used to witness the exact-100 case). -/
def two_gst_invoice : InvoiceData :=
  { invoice_number := "INV-2", total_amount := 25000,
    invoice_date := "2024-02-15", vendor_name := "Acme",
    gst_numbers := ["22AAAAA0000A1Z5", "27AAAAA0000A1Z5"],
    ocr_confidence := 95, raw_text := "invoice text",
    gst_verification := [], gst_missing := false,
    hsn_sac_codes := ["8471"], item_descriptions := ["Laptop"],
    hsn_sac_verification := [], hsn_sac_line_items_verification := none }

/-- Enrichment data for `two_gst_invoice`. -/
def two_gst_enhanced : EnhancedData :=
  { hsn_sac_codes := ["8471"], item_descriptions := ["Laptop"],
    quantities := [] }

/-- C1 witness: the amended theorem applied to a concrete full-marks invoice
with two valid GST numbers: the score is exactly 100 and within bounds. -/
theorem compliance_score_amended_bounds_witness :
    compliance_score two_gst_invoice two_gst_enhanced = 100 ∧
    0 ≤ compliance_score two_gst_invoice two_gst_enhanced ∧
    compliance_score two_gst_invoice two_gst_enhanced ≤ 100 := by
  have hmain := compliance_score_amended_bounds two_gst_invoice
    two_gst_enhanced
  have hp : presence_points two_gst_invoice = 5 := by
    have s1 : (("INV-2" : String) = "") = False := eq_false (by decide)
    have s2 : (("2024-02-15" : String) = "") = False := eq_false (by decide)
    have s3 : (("Acme" : String) = "") = False := eq_false (by decide)
    have s4 : ((["22AAAAA0000A1Z5", "27AAAAA0000A1Z5"] : List String) = [])
        = False := eq_false (by decide)
    simp only [presence_points, two_gst_invoice]
    norm_num [s1, s2, s3, s4]
  have hh : hsn_point two_gst_enhanced.hsn_sac_codes = 1 := by
    simp [two_gst_enhanced, hsn_point, hsn_sac_database_codes]
  have ha : (check_arithmetic_accuracy
      (.num two_gst_invoice.total_amount)).overall_accurate = true :=
    overall_accurate_of_ne_zero _ (by norm_num [two_gst_invoice])
  have hpr : (analyze_market_prices two_gst_enhanced two_gst_invoice).all
      (fun p => !p.is_outlier) = true := by
    simp [analyze_market_prices, two_gst_enhanced, two_gst_invoice]
  have h100 := hmain.2.2 hp (by simp [two_gst_enhanced])
    (by norm_num [two_gst_invoice]) (by decide) hh ha hpr
  exact ⟨h100, hmain.1, hmain.2.1 (by decide)⟩

/-! ## Claim C2 -/

/-- Invoice A of the claimed scenario: amount 10000, vendor `"Acme"`, one
valid GST number. -/
def acme_invoice_a : InvoiceData :=
  { invoice_number := "INV-A", total_amount := 10000,
    invoice_date := "2024-01-10", vendor_name := "Acme",
    gst_numbers := ["22AAAAA0000A1Z5"],
    ocr_confidence := 90, raw_text := "a",
    gst_verification := [{ success := true, is_active := true }],
    gst_missing := false,
    hsn_sac_codes := [], item_descriptions := [],
    hsn_sac_verification := [], hsn_sac_line_items_verification := none }

/-- Invoice B of the claimed scenario: amount 35000, same vendor name, no GST
numbers. -/
def acme_invoice_b : InvoiceData :=
  { invoice_number := "INV-B", total_amount := 35000,
    invoice_date := "2024-01-20", vendor_name := "Acme",
    gst_numbers := [],
    ocr_confidence := 90, raw_text := "b",
    gst_verification := [], gst_missing := true,
    hsn_sac_codes := [], item_descriptions := [],
    hsn_sac_verification := [], hsn_sac_line_items_verification := none }

/-- The store after A (id 0) and then B (id 1) are stored. -/
def acme_db : DbState :=
  (store_invoice (store_invoice emptyDb acme_invoice_a 100).2
    acme_invoice_b 200).2

/-- C2 counterexample: in the claimed scenario, B's anomaly run produces *no*
UNUSUAL_AMOUNT anomaly.  `vendors_stats` aggregates over all stored invoices
with vendor name `"Acme"` — B itself included, since it is stored before its
anomaly run and the pipeline has no exclusion — so the average is
(10000 + 35000) / 2 = 22500, and 35000 does not exceed 3 × 22500 = 67500. -/
theorem acme_unusual_amount_refuted :
    (detect_anomalies acme_db acme_invoice_b 1 "1").filter
      (fun a => a.type == .UNUSUAL_AMOUNT) = [] := by
  simp [detect_anomalies, duplicate_block, missing_gst_block,
    invalid_gst_block, gst_vendor_mismatch_block, unusual_amount_block,
    invalid_hsn_block, rate_mismatch_block, hsn_price_block, hsn_price_check,
    primary_gst, vendors_stats, acme_db, store_invoice, emptyDb,
    update_vendor_stats, updateFirstVendor, acme_invoice_a, acme_invoice_b,
    List.find?]
  norm_num

/-- C2 amended: B's anomaly run yields exactly one anomaly, a MISSING_GST of
HIGH severity, and in particular no UNUSUAL_AMOUNT anomaly: the vendor-name
average used for B includes B itself (22500), and 35000 ≤ 3 × 22500. -/
theorem acme_anomalies_amended :
    detect_anomalies acme_db acme_invoice_b 1 "1"
      = [{ type := .MISSING_GST, severity := .HIGH,
           relatedInvoiceId := none }] := by
  simp [detect_anomalies, duplicate_block, missing_gst_block,
    invalid_gst_block, gst_vendor_mismatch_block, unusual_amount_block,
    invalid_hsn_block, rate_mismatch_block, hsn_price_block, hsn_price_check,
    primary_gst, vendors_stats, acme_db, store_invoice, emptyDb,
    update_vendor_stats, updateFirstVendor, acme_invoice_a, acme_invoice_b,
    List.find?]
  norm_num

/-! ## Claim C6 -/

/-- An invoice over HSN code `"9983"` for the price-deviation scenario. -/
def hsn_case_invoice (n v : String) (amt : ℚ) : InvoiceData :=
  { invoice_number := n, total_amount := amt,
    invoice_date := "2024-01-10", vendor_name := v,
    gst_numbers := [],
    ocr_confidence := 90, raw_text := "x",
    gst_verification := [], gst_missing := true,
    hsn_sac_codes := ["9983"], item_descriptions := [],
    hsn_sac_verification := [], hsn_sac_line_items_verification := none }

/-- Store holding two earlier invoices with HSN `"9983"` (amounts 100, 100)
and the invoice under evaluation itself (id 2, amount 300). -/
def hsn_case_db : DbState :=
  (store_invoice
    (store_invoice
      (store_invoice emptyDb (hsn_case_invoice "H1" "V1" 100) 1).2
      (hsn_case_invoice "H2" "V2" 100) 2).2
    (hsn_case_invoice "H3" "V3" 300) 3).2

/-- C6: the HSN price-deviation query does not exclude the invoice under
evaluation — the source compares the ObjectId `_id` against the raw id
*string*, which never matches — so with only two *other* comparable invoices
stored (amounts 100 and 100), the set of similar invoices still reaches the
3-invoice minimum by including the current invoice itself, and the anomaly
fires (mean 500/3, |300 - 500/3| > 0.5 × 500/3).  Under the claimed
behaviour (at least 3 comparable invoices *excluding* the current one) no
anomaly would be emitted. -/
theorem hsn_price_deviation_fires_without_exclusion :
    ((hsn_case_db.invoices.filter
        (fun i => i.hsnCodes.contains "9983" && !(i.id == 2))).length = 2) ∧
    (detect_anomalies hsn_case_db (hsn_case_invoice "H3" "V3" 300) 2
        "2").filter (fun a => a.type == .HSN_PRICE_DEVIATION)
      = [{ type := .HSN_PRICE_DEVIATION, severity := .MEDIUM,
           relatedInvoiceId := none }] := by
  constructor
  · decide
  · simp [detect_anomalies, duplicate_block, missing_gst_block,
      invalid_gst_block, gst_vendor_mismatch_block, unusual_amount_block,
      invalid_hsn_block, rate_mismatch_block, hsn_price_block,
      hsn_price_check, primary_gst, vendors_stats, hsn_case_db,
      store_invoice, emptyDb, update_vendor_stats, updateFirstVendor,
      hsn_case_invoice, List.find?, bsonEq]
    have habs : |(300 : ℚ) - (100 + (100 + 300)) / 3| = 400 / 3 := by
      rw [show (300 : ℚ) - (100 + (100 + 300)) / 3 = 400 / 3 by norm_num]
      exact abs_of_nonneg (by norm_num)
    rw [if_pos (And.intro (by norm_num) (by rw [habs]; norm_num))]
    simp

/-! ## Claim C8 -/

/-- C8: an invoice whose extracted GST-number list is empty always produces a
MISSING_GST anomaly, and storing it leaves the `vendors` collection entirely
unchanged (no row created, nothing incremented or overwritten), because the
stored document's primary GST number is `None`. -/
theorem missing_gst_and_vendor_frame (s : DbState) (inv : InvoiceData)
    (objId : Nat) (rawId : String) (now : Nat) (h : inv.gst_numbers = []) :
    (∃ a ∈ detect_anomalies s inv objId rawId, a.type = .MISSING_GST) ∧
    (store_invoice s inv now).2.vendors = s.vendors := by
  constructor
  · refine ⟨⟨.MISSING_GST, .HIGH, none⟩, ?_, rfl⟩
    simp [detect_anomalies, missing_gst_block, h]
  · simp [store_invoice, update_vendor_stats, h]

/-- An invoice without GST numbers used to witness the frame property. -/
def plain_missing_invoice : InvoiceData :=
  { invoice_number := "INV-M", total_amount := 500,
    invoice_date := "2024-03-01", vendor_name := "NoGst Traders",
    gst_numbers := [],
    ocr_confidence := 85, raw_text := "m",
    gst_verification := [], gst_missing := true,
    hsn_sac_codes := [], item_descriptions := [],
    hsn_sac_verification := [], hsn_sac_line_items_verification := none }

/-- C8 witness: the theorem applied to a concrete GST-less invoice on the
empty store. -/
theorem missing_gst_and_vendor_frame_witness :
    (∃ a ∈ detect_anomalies emptyDb plain_missing_invoice 0 "0",
      a.type = .MISSING_GST) ∧
    (store_invoice emptyDb plain_missing_invoice 7).2.vendors
      = emptyDb.vendors :=
  missing_gst_and_vendor_frame emptyDb plain_missing_invoice 0 "0" 7 rfl

/-! ## Claim C5 -/

/-- `find_one` with a conjunctive filter returns the first filter-survivor
when that survivor also satisfies the extra conjunct. -/
theorem find?_and_of_filter_eq_cons {α : Type} (p q : α → Bool) (l : List α)
    (A : α) (rest : List α) (hfil : l.filter p = A :: rest)
    (hq : q A = true) :
    l.find? (fun x => p x && q x) = some A := by
  induction l with
  | nil => simp at hfil
  | cons x xs ih =>
    by_cases hx : p x = true
    · rw [List.filter_cons_of_pos hx] at hfil
      injection hfil with h1 h2
      subst h1
      rw [List.find?_cons_of_pos]
      simp [hx, hq]
    · rw [List.filter_cons_of_neg (by simpa using hx)] at hfil
      rw [List.find?_cons_of_neg _ (by simp [hx])]
      exact ih hfil

theorem mem_missing_gst_block_type (inv : InvoiceData) :
    ∀ a ∈ missing_gst_block inv, a.type = .MISSING_GST := by
  unfold missing_gst_block
  split <;> simp

theorem mem_invalid_gst_block_type (inv : InvoiceData) :
    ∀ a ∈ invalid_gst_block inv, a.type = .INVALID_GST := by
  unfold invalid_gst_block
  split
  · split
    · split
      · split <;> simp
      · simp
    · simp
  · simp

theorem mem_gst_vendor_mismatch_block_type (s : DbState) (inv : InvoiceData)
    (objId : Nat) :
    ∀ a ∈ gst_vendor_mismatch_block s inv objId,
      a.type = .GST_VENDOR_MISMATCH := by
  unfold gst_vendor_mismatch_block
  split
  · split
    · split <;> simp
    · simp
  · simp

theorem mem_unusual_amount_block_type (s : DbState) (inv : InvoiceData) :
    ∀ a ∈ unusual_amount_block s inv, a.type = .UNUSUAL_AMOUNT := by
  unfold unusual_amount_block
  split
  · split
    · split <;> simp
    · simp
  · simp

theorem mem_invalid_hsn_block_type (inv : InvoiceData) :
    ∀ a ∈ invalid_hsn_block inv, a.type = .INVALID_HSN_SAC := by
  unfold invalid_hsn_block
  intro a ha
  obtain ⟨v, -, rfl⟩ := List.mem_map.mp ha
  rfl

theorem mem_rate_mismatch_block_type (inv : InvoiceData) :
    ∀ a ∈ rate_mismatch_block inv, a.type = .HSN_GST_RATE_MISMATCH := by
  unfold rate_mismatch_block
  split
  · intro a ha
    obtain ⟨v, -, rfl⟩ := List.mem_map.mp ha
    rfl
  · simp

theorem mem_hsn_price_check_type (s : DbState) (inv : InvoiceData)
    (rawId : String) (cs : List String) :
    ∀ a ∈ hsn_price_check s inv rawId cs, a.type = .HSN_PRICE_DEVIATION := by
  induction cs with
  | nil => simp [hsn_price_check]
  | cons c cs ih =>
    intro a ha
    rw [hsn_price_check] at ha
    split at ha
    · rcases hm : (((s.invoices.filter
          (fun i => i.hsnCodes.contains c
            && !(bsonEq (.oid i.id) (.str rawId)))).take 10).map
          (fun i => i.totalAmount)).filter (fun x => decide (0 < x)) with
        - | ⟨a0, arest⟩
      · simp only [hm] at ha
        exact ih a ha
      · simp only [hm] at ha
        split at ha
        · have : a = ⟨.HSN_PRICE_DEVIATION, .MEDIUM, none⟩ := by
            simpa using ha
          rw [this]
        · exact ih a ha
    · exact ih a ha

/-- C5: if exactly two stored invoices A then B carry the probed invoice
number and B's anomaly run executes with B's id, the run includes exactly one
DUPLICATE_INVOICE anomaly, of HIGH severity, whose related-invoice id is A's
id (the `find_one` excludes B by id and hits A first). -/
theorem duplicate_invoice_detection (s : DbState) (inv : InvoiceData)
    (A B : StoredInvoice) (rawId : String)
    (hfil : s.invoices.filter
      (fun i => i.invoiceNumber == inv.invoice_number) = [A, B])
    (hid : A.id ≠ B.id) :
    (detect_anomalies s inv B.id rawId).filter
      (fun a => a.type == .DUPLICATE_INVOICE)
      = [{ type := .DUPLICATE_INVOICE, severity := .HIGH,
           relatedInvoiceId := some A.id }] := by
  have hfind : s.invoices.find?
      (fun i => i.invoiceNumber == inv.invoice_number && !(i.id == B.id))
      = some A :=
    find?_and_of_filter_eq_cons _ _ _ A [B] hfil (by simp [hid])
  have hdup : duplicate_block s inv B.id
      = [{ type := .DUPLICATE_INVOICE, severity := .HIGH,
           relatedInvoiceId := some A.id }] := by
    unfold duplicate_block
    rw [hfind]
  have hnil : ∀ (l : List Anomaly), (∀ a ∈ l, a.type ≠ .DUPLICATE_INVOICE) →
      l.filter (fun a => a.type == .DUPLICATE_INVOICE) = [] := by
    intro l hl
    rw [List.filter_eq_nil_iff]
    intro a ha
    simp [hl a ha]
  have h2 := hnil _ (fun a ha => by
    rw [mem_missing_gst_block_type inv a ha]; intro hcon; cases hcon)
  have h3 := hnil _ (fun a ha => by
    rw [mem_invalid_gst_block_type inv a ha]; intro hcon; cases hcon)
  have h4 := hnil _ (fun a ha => by
    rw [mem_gst_vendor_mismatch_block_type s inv B.id a ha]
    intro hcon; cases hcon)
  have h5 := hnil _ (fun a ha => by
    rw [mem_unusual_amount_block_type s inv a ha]; intro hcon; cases hcon)
  have h6 := hnil _ (fun a ha => by
    rw [mem_invalid_hsn_block_type inv a ha]; intro hcon; cases hcon)
  have h7 := hnil _ (fun a ha => by
    rw [mem_rate_mismatch_block_type inv a ha]; intro hcon; cases hcon)
  have h8 := hnil _ (fun a ha => by
    rw [mem_hsn_price_check_type s inv rawId (inv.hsn_sac_codes.take 3) a ha]
    intro hcon; cases hcon)
  unfold detect_anomalies hsn_price_block
  rw [List.filter_append, List.filter_append, List.filter_append,
    List.filter_append, List.filter_append, List.filter_append,
    List.filter_append, hdup, h2, h3, h4, h5, h6, h7, h8]
  simp

/-- First stored invoice of the duplicate-number witness scenario. -/
def dup_stored_a : StoredInvoice :=
  { id := 0, invoiceNumber := "INV-D", vendorName := "V", gstNumber := none,
    totalAmount := 100, hsnCodes := [], uploadDate := 10 }

/-- Second stored invoice with the same number, different id. -/
def dup_stored_b : StoredInvoice :=
  { id := 1, invoiceNumber := "INV-D", vendorName := "W", gstNumber := none,
    totalAmount := 200, hsnCodes := [], uploadDate := 20 }

/-- Store holding exactly the two duplicate-numbered invoices. -/
def dup_db : DbState :=
  { invoices := [dup_stored_a, dup_stored_b], vendors := [], nextId := 2 }

/-- The invoice data of B as handed to its anomaly run. -/
def dup_probe_invoice : InvoiceData :=
  { invoice_number := "INV-D", total_amount := 200,
    invoice_date := "2024-04-01", vendor_name := "W",
    gst_numbers := [],
    ocr_confidence := 80, raw_text := "d",
    gst_verification := [], gst_missing := true,
    hsn_sac_codes := [], item_descriptions := [],
    hsn_sac_verification := [], hsn_sac_line_items_verification := none }

/-- C5 witness: the theorem applied to the concrete two-invoice store. -/
theorem duplicate_invoice_detection_witness :
    (detect_anomalies dup_db dup_probe_invoice dup_stored_b.id "1").filter
      (fun a => a.type == .DUPLICATE_INVOICE)
      = [{ type := .DUPLICATE_INVOICE, severity := .HIGH,
           relatedInvoiceId := some dup_stored_a.id }] :=
  duplicate_invoice_detection dup_db dup_probe_invoice dup_stored_a
    dup_stored_b "1" (by decide) (by decide)

/-! ## Claim C9 -/

/-- C9: for a range of D days the trend query returns exactly D + 1 entries,
one per calendar day of the inclusive range in ascending order, and every day
with no stored anomalies carries all four bucket counts and the total equal
to zero. -/
theorem anomaly_trends_shape (anomalies : List AnomalyRow) (today : ℤ)
    (days : Nat) :
    (get_anomaly_trends anomalies today days).length = days + 1 ∧
    (get_anomaly_trends anomalies today days).map (fun e => e.date)
      = (List.range (days + 1)).map
        (fun i : Nat => today - days + (i : ℤ)) ∧
    ∀ e ∈ get_anomaly_trends anomalies today days,
      (∀ a ∈ anomalies, a.detectedDate ≠ e.date) →
        e.duplicates = 0 ∧ e.invalidGst = 0 ∧ e.missingGst = 0 ∧
          e.hsnAnomalies = 0 ∧ e.total = 0 := by
  refine ⟨?_, ?_, ?_⟩
  · rw [show (get_anomaly_trends anomalies today days).length
        = ((List.range (days + 1)).map (fun i : Nat =>
            trend_entry_for (anomalies.filter
              (fun a => today - days ≤ a.detectedDate
                ∧ a.detectedDate ≤ today))
              (today - days + (i : ℤ)))).length
      from rfl]
    rw [List.length_map, List.length_range]
  · simp only [get_anomaly_trends, List.map_map]
    rfl
  · intro e he hnone
    simp only [get_anomaly_trends, List.mem_map] at he
    obtain ⟨i, -, rfl⟩ := he
    have hdate : (trend_entry_for
        (anomalies.filter (fun a => today - days ≤ a.detectedDate
          ∧ a.detectedDate ≤ today)) (today - days + i)).date
        = today - days + i := rfl
    rw [hdate] at hnone
    have hz : ∀ p : AnomalyRow → Bool,
        ((anomalies.filter (fun a => today - days ≤ a.detectedDate
          ∧ a.detectedDate ≤ today)).filter
          (fun a => a.detectedDate == today - days + i && p a)).length
          = 0 := by
      intro p
      rw [List.length_eq_zero, List.filter_eq_nil_iff]
      intro a ha
      have hmem := List.mem_of_mem_filter ha
      have hne := hnone a hmem
      simp [hne]
    have hz2 : ((anomalies.filter (fun a => today - days ≤ a.detectedDate
        ∧ a.detectedDate ≤ today)).filter
        (fun a => a.detectedDate == today - days + i)).length = 0 := by
      rw [List.length_eq_zero, List.filter_eq_nil_iff]
      intro a ha
      have hmem := List.mem_of_mem_filter ha
      have hne := hnone a hmem
      simp [hne]
    exact ⟨hz _, hz _, hz _, hz _, hz2⟩

/-- C9 witness: the theorem applied at a concrete two-day range holding one
anomaly. -/
theorem anomaly_trends_shape_witness :
    (get_anomaly_trends [{ anomalyType := .MISSING_GST, detectedDate := 9 }]
      10 2).length = 2 + 1 ∧
    (get_anomaly_trends [{ anomalyType := .MISSING_GST, detectedDate := 9 }]
      10 2).map (fun e => e.date) = [8, 9, 10] := by
  have h := anomaly_trends_shape
    [{ anomalyType := .MISSING_GST, detectedDate := 9 }] 10 2
  refine ⟨h.1, ?_⟩
  rw [h.2.1]
  decide

/-! ## Claim C4 -/

/-- `find_one` over an appended collection: the first segment wins. -/
theorem find?_append_or {α : Type} (p : α → Bool) (l₁ l₂ : List α) :
    (l₁ ++ l₂).find? p
      = match l₁.find? p with
        | some x => some x
        | none => l₂.find? p := by
  induction l₁ with
  | nil => simp
  | cons x xs ih =>
    by_cases hx : p x = true
    · rw [List.cons_append, List.find?_cons_of_pos _ hx,
        List.find?_cons_of_pos _ hx]
    · rw [List.cons_append, List.find?_cons_of_neg _ (by simp [hx]),
        List.find?_cons_of_neg _ (by simp [hx]), ih]

/-- `update_one` on the first row with the probed key: `find_one` afterwards
returns the updated row (key-preserving updates). -/
theorem find?_updateFirstVendor_eq (g : String) (f : VendorRow → VendorRow)
    (hf : ∀ r, (f r).gstNumber = r.gstNumber) (l : List VendorRow) :
    (updateFirstVendor g f l).find? (fun r => r.gstNumber == g)
      = (l.find? (fun r => r.gstNumber == g)).map f := by
  induction l with
  | nil => rfl
  | cons r rs ih =>
    by_cases hr : r.gstNumber = g
    · rw [updateFirstVendor, if_pos hr,
        List.find?_cons_of_pos _ (by simp [hf r, hr]),
        List.find?_cons_of_pos _ (by simp [hr])]
      rfl
    · rw [updateFirstVendor, if_neg hr,
        List.find?_cons_of_neg _ (by simp [hr]),
        List.find?_cons_of_neg _ (by simp [hr])]
      exact ih

/-- `update_one` keyed to a *different* GST number leaves the probed
`find_one` result unchanged (key-preserving updates). -/
theorem find?_updateFirstVendor_ne (g gOther : String) (hne : g ≠ gOther)
    (f : VendorRow → VendorRow) (hf : ∀ r, (f r).gstNumber = r.gstNumber)
    (l : List VendorRow) :
    (updateFirstVendor gOther f l).find? (fun r => r.gstNumber == g)
      = l.find? (fun r => r.gstNumber == g) := by
  induction l with
  | nil => rfl
  | cons r rs ih =>
    by_cases hr : r.gstNumber = gOther
    · have hc1 : ((f r).gstNumber == g) = false := by
        rw [hf r, hr]
        exact beq_eq_false_iff_ne.mpr (Ne.symm hne)
      have hc2 : (r.gstNumber == g) = false := by
        rw [hr]
        exact beq_eq_false_iff_ne.mpr (Ne.symm hne)
      rw [updateFirstVendor, if_pos hr,
        List.find?_cons_of_neg _ (by simp [hc1]),
        List.find?_cons_of_neg _ (by simp [hc2])]
    · rw [updateFirstVendor, if_neg hr]
      by_cases hg : r.gstNumber = g
      · rw [List.find?_cons_of_pos _ (by simp [hg]),
          List.find?_cons_of_pos _ (by simp [hg])]
      · rw [List.find?_cons_of_neg _ (by simp [hg]),
          List.find?_cons_of_neg _ (by simp [hg])]
        exact ih

/-- Storing a document whose primary GST number is the (valid) probed key
increments the existing aggregate row once, or creates it with count 1. -/
theorem update_vendor_stats_hit (vendors : List VendorRow)
    (doc : StoredInvoice) (now : Nat) (g : String)
    (hdoc : doc.gstNumber = some g) (hg1 : g ≠ "") (hg2 : g ≠ "Unknown") :
    ((update_vendor_stats vendors doc now).find?
        (fun r => r.gstNumber == g)).map
      (fun r => (r.totalInvoices, r.totalAmount))
    = some (match (vendors.find? (fun r => r.gstNumber == g)).map
          (fun r => (r.totalInvoices, r.totalAmount)) with
        | some (c, a) => (c + 1, a + doc.totalAmount)
        | none => (1, doc.totalAmount)) := by
  unfold update_vendor_stats
  rw [hdoc]
  dsimp only
  rw [if_neg (by push_neg; exact ⟨hg1, hg2⟩)]
  cases hfind : vendors.find? (fun r => r.gstNumber == g) with
  | some r =>
    dsimp only
    rw [find?_updateFirstVendor_eq g
      (fun r =>
        { r with
          totalInvoices := r.totalInvoices + 1,
          totalAmount := r.totalAmount + doc.totalAmount,
          vendorName := doc.vendorName,
          lastInvoiceDate := now })
      (fun _ => rfl) vendors, hfind]
    rfl
  | none =>
    dsimp only
    rw [find?_append_or, hfind]
    simp [List.find?]

/-- Storing a document whose primary GST number is absent, falsy, the
sentinel, or a different key leaves the probed `find_one` result
unchanged. -/
theorem update_vendor_stats_miss (vendors : List VendorRow)
    (doc : StoredInvoice) (now : Nat) (g : String)
    (h : doc.gstNumber ≠ some g ∨ g = "" ∨ g = "Unknown") :
    (update_vendor_stats vendors doc now).find? (fun r => r.gstNumber == g)
      = vendors.find? (fun r => r.gstNumber == g) := by
  unfold update_vendor_stats
  cases hdoc : doc.gstNumber with
  | none => rfl
  | some gd =>
    dsimp only
    by_cases hguard : gd = "" ∨ gd = "Unknown"
    · rw [if_pos hguard]
    · rw [if_neg hguard]
      have hne : g ≠ gd := by
        rcases h with h | h | h
        · intro he
          exact h (by rw [hdoc, he])
        · push_neg at hguard
          intro he
          exact hguard.1 (by rw [← he, h])
        · push_neg at hguard
          intro he
          exact hguard.2 (by rw [← he, h])
      cases hfind : vendors.find? (fun r => r.gstNumber == gd) with
      | some r =>
        dsimp only
        rw [find?_updateFirstVendor_ne g gd hne
          (fun r =>
            { r with
              totalInvoices := r.totalInvoices + 1,
              totalAmount := r.totalAmount + doc.totalAmount,
              vendorName := doc.vendorName,
              lastInvoiceDate := now })
          (fun _ => rfl) vendors]
      | none =>
        dsimp only
        rw [find?_append_or]
        cases hfg : vendors.find? (fun r => r.gstNumber == g) with
        | some r => rfl
        | none =>
          simp [List.find?, beq_eq_false_iff_ne.mpr (Ne.symm hne)]

/-- Observation: count and running total of the vendor aggregate row for a
GST number, when the row exists. -/
def vendor_row_totals (s : DbState) (g : String) : Option (Nat × ℚ) :=
  (s.vendors.find? (fun r => r.gstNumber == g)).map
    (fun r => (r.totalInvoices, r.totalAmount))

/-- Observation: how many of the submitted invoices carry primary GST `g`. -/
def matching_count (g : String) (l : List (InvoiceData × Nat)) : Nat :=
  l.countP (fun p => primary_gst p.1 == some g)

/-- Observation: total amount of the submitted invoices with primary GST
`g`. -/
def matching_sum (g : String) (l : List (InvoiceData × Nat)) : ℚ :=
  ((l.filter (fun p => primary_gst p.1 == some g)).map
    (fun p => p.1.total_amount)).sum

theorem vendor_row_totals_store_hit (s : DbState) (inv : InvoiceData)
    (now : Nat) (g : String) (hg1 : g ≠ "") (hg2 : g ≠ "Unknown")
    (hp : primary_gst inv = some g) :
    vendor_row_totals (store_invoice s inv now).2 g
      = some (match vendor_row_totals s g with
          | some (c, a) => (c + 1, a + inv.total_amount)
          | none => (1, inv.total_amount)) := by
  unfold vendor_row_totals store_invoice
  dsimp only
  exact update_vendor_stats_hit s.vendors _ now g hp hg1 hg2

theorem vendor_row_totals_store_miss (s : DbState) (inv : InvoiceData)
    (now : Nat) (g : String) (hp : primary_gst inv ≠ some g) :
    vendor_row_totals (store_invoice s inv now).2 g
      = vendor_row_totals s g := by
  unfold vendor_row_totals store_invoice
  dsimp only
  rw [update_vendor_stats_miss s.vendors _ now g (Or.inl hp)]

theorem matching_count_cons_hit (g : String) (inv : InvoiceData) (now : Nat)
    (rest : List (InvoiceData × Nat)) (hp : primary_gst inv = some g) :
    matching_count g ((inv, now) :: rest) = matching_count g rest + 1 := by
  simp [matching_count, List.countP_cons, hp]

theorem matching_count_cons_miss (g : String) (inv : InvoiceData) (now : Nat)
    (rest : List (InvoiceData × Nat)) (hp : primary_gst inv ≠ some g) :
    matching_count g ((inv, now) :: rest) = matching_count g rest := by
  simp [matching_count, List.countP_cons, hp]

theorem matching_sum_cons_hit (g : String) (inv : InvoiceData) (now : Nat)
    (rest : List (InvoiceData × Nat)) (hp : primary_gst inv = some g) :
    matching_sum g ((inv, now) :: rest)
      = inv.total_amount + matching_sum g rest := by
  simp [matching_sum, List.filter_cons, hp]

theorem matching_sum_cons_miss (g : String) (inv : InvoiceData) (now : Nat)
    (rest : List (InvoiceData × Nat)) (hp : primary_gst inv ≠ some g) :
    matching_sum g ((inv, now) :: rest) = matching_sum g rest := by
  simp [matching_sum, List.filter_cons, hp]

/-- Aggregation invariant of iterated storage: the vendor row for `g` tracks
exactly the count and amount-sum of the stored invoices with primary GST
`g`, on top of whatever the starting state already recorded. -/
theorem store_all_vendor_row (g : String) (hg1 : g ≠ "")
    (hg2 : g ≠ "Unknown") :
    ∀ (l : List (InvoiceData × Nat)) (s : DbState),
    vendor_row_totals (store_all s l) g
      = match vendor_row_totals s g with
        | some (c, a) =>
          some (c + matching_count g l, a + matching_sum g l)
        | none =>
          if matching_count g l = 0 then none
          else some (matching_count g l, matching_sum g l) := by
  intro l
  induction l with
  | nil =>
    intro s
    rw [store_all]
    cases h : vendor_row_totals s g with
    | some p =>
      cases p with
      | mk c a => simp [matching_count, matching_sum]
    | none => simp [matching_count, matching_sum]
  | cons pr rest ih =>
    intro s
    obtain ⟨inv, now⟩ := pr
    rw [store_all, ih ((store_invoice s inv now).2)]
    by_cases hp : primary_gst inv = some g
    · rw [vendor_row_totals_store_hit s inv now g hg1 hg2 hp,
        matching_count_cons_hit g inv now rest hp,
        matching_sum_cons_hit g inv now rest hp]
      cases hv : vendor_row_totals s g with
      | some p =>
        cases p with
        | mk c a =>
          dsimp only
          refine congrArg some ?_
          rw [Prod.mk.injEq]
          constructor
          · omega
          · ring
      | none =>
        dsimp only
        rw [if_neg (by omega)]
        refine congrArg some ?_
        rw [Prod.mk.injEq]
        constructor
        · omega
        · ring
    · rw [vendor_row_totals_store_miss s inv now g hp,
        matching_count_cons_miss g inv now rest hp,
        matching_sum_cons_miss g inv now rest hp]

/-- C4: starting from the empty database, after any interleaved sequence of
stored invoices, the vendor aggregate row for a non-absent, non-"Unknown"
primary GST number `g` exists exactly when some stored invoice carried `g`,
and then its invoice count is exactly the number of such invoices and its
amount exactly the sum of their total amounts — the row is created by the
first such invoice and incremented once per subsequent one. -/
theorem vendor_aggregate_consistency (l : List (InvoiceData × Nat))
    (g : String) (hg1 : g ≠ "") (hg2 : g ≠ "Unknown") :
    vendor_row_totals (store_all emptyDb l) g
      = if matching_count g l = 0 then none
        else some (matching_count g l, matching_sum g l) := by
  rw [store_all_vendor_row g hg1 hg2 l emptyDb]
  rfl

/-- First witness invoice with the probed GST number, amount 10. -/
def vendor_witness_inv_1 : InvoiceData :=
  { invoice_number := "W1", total_amount := 10,
    invoice_date := "2024-05-01", vendor_name := "Acme",
    gst_numbers := ["22AAAAA0000A1Z5"],
    ocr_confidence := 90, raw_text := "w1",
    gst_verification := [], gst_missing := false,
    hsn_sac_codes := [], item_descriptions := [],
    hsn_sac_verification := [], hsn_sac_line_items_verification := none }

/-- Interleaved invoice for a different vendor/GST number. -/
def vendor_witness_inv_other : InvoiceData :=
  { invoice_number := "W2", total_amount := 99,
    invoice_date := "2024-05-02", vendor_name := "Bolt",
    gst_numbers := ["27BBBBB1111B1Z3"],
    ocr_confidence := 90, raw_text := "w2",
    gst_verification := [], gst_missing := false,
    hsn_sac_codes := [], item_descriptions := [],
    hsn_sac_verification := [], hsn_sac_line_items_verification := none }

/-- Second witness invoice with the probed GST number, amount 20. -/
def vendor_witness_inv_2 : InvoiceData :=
  { invoice_number := "W3", total_amount := 20,
    invoice_date := "2024-05-03", vendor_name := "Acme Corp",
    gst_numbers := ["22AAAAA0000A1Z5"],
    ocr_confidence := 90, raw_text := "w3",
    gst_verification := [], gst_missing := false,
    hsn_sac_codes := [], item_descriptions := [],
    hsn_sac_verification := [], hsn_sac_line_items_verification := none }

/-- Witness submission sequence: two invoices for the probed GST number
interleaved with one for another vendor. -/
def vendor_witness_list : List (InvoiceData × Nat) :=
  [(vendor_witness_inv_1, 1), (vendor_witness_inv_other, 2),
   (vendor_witness_inv_2, 3)]

/-- C4 witness: the theorem applied to the concrete interleaved sequence;
the probed GST number matches exactly two of the three invoices. -/
theorem vendor_aggregate_consistency_witness :
    (vendor_row_totals (store_all emptyDb vendor_witness_list)
        "22AAAAA0000A1Z5"
      = if matching_count "22AAAAA0000A1Z5" vendor_witness_list = 0 then none
        else some (matching_count "22AAAAA0000A1Z5" vendor_witness_list,
          matching_sum "22AAAAA0000A1Z5" vendor_witness_list)) ∧
    matching_count "22AAAAA0000A1Z5" vendor_witness_list = 2 :=
  ⟨vendor_aggregate_consistency vendor_witness_list "22AAAAA0000A1Z5"
    (by decide) (by decide), by decide⟩
